import Mathlib

/-!
Shallow embedding of `src/Server_Tools.py`: two MCP CRUD dispatchers
(`sqlserver_crud` over a MySQL `Customers` table, `postgresql_crud` over a
PostgreSQL `products` table), their parameter validation, the parameterized
SQL statements they build, the store-side effect of each statement, and the
environment-variable configuration loading at module import time.

Python values are modelled explicitly: optional parameters are `Option`s,
Python truthiness (`if not name`, `if not customer_id`) is `truthyStr` /
`truthyInt`, floats are `ℚ`, `datetime` values are a `Timestamp` record whose
`isoformat` mirrors `datetime.isoformat`. Each dispatcher is a pure function
from its arguments plus the store state (table contents, information-schema
contents, and the store-assigned id/timestamp for an insert) to a record
holding: how many connections were acquired and closed, the ordered list of
`cur.execute(sql, params)` calls, the returned `{sql, result}` payload, and
the table state after the call.
-/

/-- A Python value as it appears in a returned row-record (JSON-like). -/
inductive PyVal where
  | vstr (s : String)
  | vint (n : Int)
  | vnum (q : ℚ)
  | vnull
deriving DecidableEq, Repr

/-- A value bound as a SQL statement parameter (the tuple passed to
`cur.execute(sql_query, params)`). -/
inductive SqlValue where
  | str (s : String)
  | int (n : Int)
  | num (q : ℚ)
  | null
deriving DecidableEq, Repr

/-- The `result` field of a dispatcher response: either a message string or a
list of row-records (each record a Python dict, modelled as a key/value list). -/
inductive ResultData where
  | rstr (s : String)
  | rows (rs : List (List (String × PyVal)))
deriving DecidableEq, Repr

/-- The `{"sql": ..., "result": ...}` record every dispatcher returns. -/
structure ToolResult where
  sql : Option String
  result : ResultData
deriving DecidableEq, Repr

/-- Everything observable about one dispatcher invocation: connection events,
the `cur.execute` calls in order, the returned record, and the table state
after the call. -/
structure DispatchOut (Row : Type) where
  acquired : Nat
  closes : Nat
  executed : List (String × List SqlValue)
  response : ToolResult
  table : List Row
deriving Repr

/-- A timestamp as the MySQL driver hands it back (a Python `datetime`). -/
structure Timestamp where
  year : Nat
  month : Nat
  day : Nat
  hour : Nat
  minute : Nat
  second : Nat
deriving DecidableEq, Repr

/-- Zero-pad a numeral to two digits, as `datetime.isoformat` does. -/
def pad2 (n : Nat) : String :=
  if n < 10 then "0" ++ toString n else toString n

/-- Zero-pad the year to four digits, as `datetime.isoformat` does. -/
def pad4 (n : Nat) : String :=
  if n < 10 then "000" ++ toString n
  else if n < 100 then "00" ++ toString n
  else if n < 1000 then "0" ++ toString n
  else toString n

/-- Model of Python `datetime.isoformat()`: `YYYY-MM-DDTHH:MM:SS`. -/
def Timestamp.isoformat (t : Timestamp) : String :=
  pad4 t.year ++ "-" ++ pad2 t.month ++ "-" ++ pad2 t.day ++ "T" ++
    pad2 t.hour ++ ":" ++ pad2 t.minute ++ ":" ++ pad2 t.second

/-- Python truthiness of an optional string parameter (`if not name`):
`None` and the empty string are falsy. -/
def truthyStr : Option String → Bool
  | none => false
  | some s => !(s == "")

/-- Python truthiness of an optional integer parameter (`if not customer_id`):
`None` and `0` are falsy. -/
def truthyInt : Option Int → Bool
  | none => false
  | some n => !(n == 0)

/-- An optional string bound as a SQL parameter (Python `None` becomes SQL NULL). -/
def optStrVal : Option String → SqlValue
  | none => .null
  | some s => .str s

/-- An optional integer rendered into a returned row-record. -/
def optIntVal : Option Int → PyVal
  | none => .vnull
  | some n => .vint n

/-- A row of the MySQL `Customers` table. -/
structure CustomerRow where
  Id : Int
  Name : String
  Email : String
  CreatedAt : Timestamp
deriving DecidableEq, Repr

/-- A row of the PostgreSQL `products` table (`description` is nullable). -/
structure ProductRow where
  id : Int
  name : String
  price : ℚ
  description : Option String
deriving DecidableEq, Repr

/-- One row of a store's information schema (`information_schema.columns`). -/
structure InfoColumn where
  table_schema : String
  table_name : String
  column_name : String
  data_type : String
  is_nullable : String
  char_max_length : Option Int
deriving DecidableEq, Repr

/-- The statement text of `sqlserver_crud`'s create branch. -/
def mysqlCreateSql : String := "INSERT INTO Customers (Name, Email) VALUES (%s, %s)"

/-- The statement text of `sqlserver_crud`'s read branch (a Python
triple-quoted string, whitespace included). -/
def mysqlReadSql : String :=
  "\n            SELECT Id, Name, Email, CreatedAt\n            FROM Customers\n            ORDER BY Id ASC\n        "

/-- The statement text of `sqlserver_crud`'s update branch. -/
def mysqlUpdateSql : String := "UPDATE Customers SET Email = %s WHERE Id = %s"

/-- The statement text of `sqlserver_crud`'s delete branch. -/
def mysqlDeleteSql : String := "DELETE FROM Customers WHERE Id = %s"

/-- The statement text of `sqlserver_crud`'s describe branch (filters by both
TABLE_SCHEMA and TABLE_NAME). -/
def mysqlDescribeSql : String :=
  "\n            SELECT COLUMN_NAME, DATA_TYPE, IS_NULLABLE, CHARACTER_MAXIMUM_LENGTH\n            FROM INFORMATION_SCHEMA.COLUMNS\n            WHERE TABLE_SCHEMA = %s AND TABLE_NAME = %s\n        "

/-- The statement text of `postgresql_crud`'s create branch. -/
def pgCreateSql : String := "INSERT INTO products (name, price, description) VALUES (%s, %s, %s)"

/-- The statement text of `postgresql_crud`'s read branch (three adjacent
Python string literals concatenated). -/
def pgReadSql : String := "SELECT id, name, price, description FROM products ORDER BY id ASC"

/-- The statement text of `postgresql_crud`'s update branch. -/
def pgUpdateSql : String := "UPDATE products SET price = %s WHERE id = %s"

/-- The statement text of `postgresql_crud`'s delete-by-id branch. -/
def pgDeleteByIdSql : String := "DELETE FROM products WHERE id = %s"

/-- The statement text of `postgresql_crud`'s delete-by-name branch. -/
def pgDeleteByNameSql : String := "DELETE FROM products WHERE name = %s"

/-- The statement text of `postgresql_crud`'s describe branch (filters by
table_name only: no schema filter appears in the source). -/
def pgDescribeSql : String :=
  "\n            SELECT column_name, data_type, is_nullable, character_maximum_length\n            FROM information_schema.columns\n            WHERE table_name = %s\n        "

/-- The five statement texts `sqlserver_crud` can ever execute. -/
def mysqlStatements : List String :=
  [mysqlCreateSql, mysqlReadSql, mysqlUpdateSql, mysqlDeleteSql, mysqlDescribeSql]

/-- The six statement texts `postgresql_crud` can ever execute. -/
def pgStatements : List String :=
  [pgCreateSql, pgReadSql, pgUpdateSql, pgDeleteByIdSql, pgDeleteByNameSql, pgDescribeSql]

/-- Render one fetched Customer row into the dict built by the read branch. -/
def renderCustomer (r : CustomerRow) : List (String × PyVal) :=
  [("Id", .vint r.Id), ("Name", .vstr r.Name), ("Email", .vstr r.Email),
   ("CreatedAt", .vstr r.CreatedAt.isoformat)]

/-- Render one fetched product row into the dict built by the read branch
(`r[3] or ""` maps a NULL description to the empty string). -/
def renderProduct (r : ProductRow) : List (String × PyVal) :=
  [("id", .vint r.id), ("name", .vstr r.name), ("price", .vnum r.price),
   ("description", .vstr (r.description.getD ""))]

/-- Render one information-schema row into the dict built by a describe branch. -/
def renderInfo (c : InfoColumn) : List (String × PyVal) :=
  [("column", .vstr c.column_name), ("type", .vstr c.data_type),
   ("nullable", .vstr c.is_nullable), ("max_length", optIntVal c.char_max_length)]

/-- The keyword arguments of `sqlserver_crud` with their Python defaults. -/
structure MySqlArgs where
  operation : String
  name : Option String := none
  email : Option String := none
  limit : Int := 10
  customer_id : Option Int := none
  new_email : Option String := none
  table_name : Option String := none
deriving DecidableEq, Repr

/-- The keyword arguments of `postgresql_crud` with their Python defaults. -/
structure PgArgs where
  operation : String
  name : Option String := none
  price : Option ℚ := none
  description : Option String := none
  limit : Int := 10
  product_id : Option Int := none
  new_price : Option ℚ := none
  table_name : Option String := none
deriving DecidableEq, Repr

/-- Comparator used to model `ORDER BY Id ASC` on the Customers table. -/
def customerLe (a b : CustomerRow) : Prop := a.Id ≤ b.Id

/-- Comparator used to model `ORDER BY id ASC` on the products table. -/
def productLe (a b : ProductRow) : Prop := a.id ≤ b.id

instance : DecidableRel customerLe := fun a b => inferInstanceAs (Decidable (a.Id ≤ b.Id))
instance : DecidableRel productLe := fun a b => inferInstanceAs (Decidable (a.id ≤ b.id))
instance : IsTotal CustomerRow customerLe := ⟨fun a b => le_total a.Id b.Id⟩
instance : IsTrans CustomerRow customerLe := ⟨fun _ _ _ h h2 => le_trans h h2⟩
instance : IsTotal ProductRow productLe := ⟨fun a b => le_total a.id b.id⟩
instance : IsTrans ProductRow productLe := ⟨fun _ _ _ h h2 => le_trans h h2⟩

/-- `sqlserver_crud` from `src/Server_Tools.py` (lines 120–193). Besides the
keyword arguments it takes the store state: the configured database name
`MYSQL_DB` (bound into the describe query), the current `Customers` table, the
information schema, and the id and timestamp the store would assign to an
inserted row. The source acquires a connection at entry and returns from every
branch without calling `cnxn.close()`, so `closes = 0` on every path. -/
def sqlserver_crud (MYSQL_DB : String) (a : MySqlArgs) (customers : List CustomerRow)
    (info : List InfoColumn) (newId : Int) (newTs : Timestamp) : DispatchOut CustomerRow :=
  if a.operation == "create" then
    if !(truthyStr a.name && truthyStr a.email) then
      { acquired := 1, closes := 0, executed := [],
        response := { sql := none, result := .rstr "❌ 'name' and 'email' required for create." },
        table := customers }
    else
      let nm := a.name.getD ""
      let em := a.email.getD ""
      { acquired := 1, closes := 0,
        executed := [(mysqlCreateSql, [.str nm, .str em])],
        response := { sql := some mysqlCreateSql,
                      result := .rstr ("✅ Customer '" ++ nm ++ "' added.") },
        table := customers ++ [{ Id := newId, Name := nm, Email := em, CreatedAt := newTs }] }
  else if a.operation == "read" then
    { acquired := 1, closes := 0,
      executed := [(mysqlReadSql, [])],
      response := { sql := some mysqlReadSql,
                    result := .rows ((List.insertionSort customerLe customers).map renderCustomer) },
      table := customers }
  else if a.operation == "update" then
    if !(truthyInt a.customer_id && truthyStr a.new_email) then
      { acquired := 1, closes := 0, executed := [],
        response := { sql := none,
                      result := .rstr "❌ 'customer_id' and 'new_email' required for update." },
        table := customers }
    else
      let cid := a.customer_id.getD 0
      let ne := a.new_email.getD ""
      { acquired := 1, closes := 0,
        executed := [(mysqlUpdateSql, [.str ne, .int cid])],
        response := { sql := some mysqlUpdateSql,
                      result := .rstr ("✅ Customer id=" ++ toString cid ++ " updated.") },
        table := customers.map (fun r => if r.Id == cid then { r with Email := ne } else r) }
  else if a.operation == "delete" then
    if !truthyInt a.customer_id then
      { acquired := 1, closes := 0, executed := [],
        response := { sql := none, result := .rstr "❌ 'customer_id' required for delete." },
        table := customers }
    else
      let cid := a.customer_id.getD 0
      { acquired := 1, closes := 0,
        executed := [(mysqlDeleteSql, [.int cid])],
        response := { sql := some mysqlDeleteSql,
                      result := .rstr ("✅ Customer id=" ++ toString cid ++ " deleted.") },
        table := customers.filter (fun r => !(r.Id == cid)) }
  else if a.operation == "describe" then
    if !truthyStr a.table_name then
      { acquired := 1, closes := 0, executed := [],
        response := { sql := none, result := .rstr "❌ 'table_name' required for describe." },
        table := customers }
    else
      let tn := a.table_name.getD ""
      { acquired := 1, closes := 0,
        executed := [(mysqlDescribeSql, [.str MYSQL_DB, .str tn])],
        response := { sql := some mysqlDescribeSql,
                      result := .rows ((info.filter
                        (fun c => c.table_schema == MYSQL_DB && c.table_name == tn)).map renderInfo) },
        table := customers }
  else
    { acquired := 1, closes := 0, executed := [],
      response := { sql := none,
                    result := .rstr ("❌ Unknown operation '" ++ a.operation ++ "'.") },
      table := customers }

/-- `postgresql_crud` from `src/Server_Tools.py` (lines 198–290). Takes the
current `products` table, the information schema, and the id the store would
assign to an inserted row. The source closes the connection on every branch
except the two delete returns (`closes = 0` there); the describe query filters
by `table_name` only, with no schema filter. -/
def postgresql_crud (a : PgArgs) (products : List ProductRow) (info : List InfoColumn)
    (newId : Int) : DispatchOut ProductRow :=
  if a.operation == "create" then
    if !truthyStr a.name || a.price.isNone then
      { acquired := 1, closes := 1, executed := [],
        response := { sql := none, result := .rstr "❌ 'name' and 'price' required for create." },
        table := products }
    else
      let nm := a.name.getD ""
      let pr := a.price.getD 0
      { acquired := 1, closes := 1,
        executed := [(pgCreateSql, [.str nm, .num pr, optStrVal a.description])],
        response := { sql := some pgCreateSql,
                      result := .rstr ("✅ Product '" ++ nm ++ "' added.") },
        table := products ++ [{ id := newId, name := nm, price := pr, description := a.description }] }
  else if a.operation == "read" then
    { acquired := 1, closes := 1,
      executed := [(pgReadSql, [])],
      response := { sql := some pgReadSql,
                    result := .rows ((List.insertionSort productLe products).map renderProduct) },
      table := products }
  else if a.operation == "update" then
    if !truthyInt a.product_id || a.new_price.isNone then
      { acquired := 1, closes := 1, executed := [],
        response := { sql := none,
                      result := .rstr "❌ 'product_id' and 'new_price' required for update." },
        table := products }
    else
      let pid := a.product_id.getD 0
      let np := a.new_price.getD 0
      { acquired := 1, closes := 1,
        executed := [(pgUpdateSql, [.num np, .int pid])],
        response := { sql := some pgUpdateSql,
                      result := .rstr ("✅ Product id=" ++ toString pid ++ " updated.") },
        table := products.map (fun r => if r.id == pid then { r with price := np } else r) }
  else if a.operation == "delete" then
    if !truthyInt a.product_id && !truthyStr a.name then
      { acquired := 1, closes := 0, executed := [],
        response := { sql := none,
                      result := .rstr "❌ Provide 'product_id' **or** 'name' for delete." },
        table := products }
    else if truthyInt a.product_id then
      let pid := a.product_id.getD 0
      { acquired := 1, closes := 0,
        executed := [(pgDeleteByIdSql, [.int pid])],
        response := { sql := some pgDeleteByIdSql, result := .rstr "✅ Deleted product." },
        table := products.filter (fun r => !(r.id == pid)) }
    else
      let nm := a.name.getD ""
      { acquired := 1, closes := 0,
        executed := [(pgDeleteByNameSql, [.str nm])],
        response := { sql := some pgDeleteByNameSql, result := .rstr "✅ Deleted product." },
        table := products.filter (fun r => !(r.name == nm)) }
  else if a.operation == "describe" then
    if !truthyStr a.table_name then
      { acquired := 1, closes := 1, executed := [],
        response := { sql := none, result := .rstr "❌ 'table_name' required for describe." },
        table := products }
    else
      let tn := a.table_name.getD ""
      { acquired := 1, closes := 1,
        executed := [(pgDescribeSql, [.str tn])],
        response := { sql := some pgDescribeSql,
                      result := .rows ((info.filter (fun c => c.table_name == tn)).map renderInfo) },
        table := products }
  else
    { acquired := 1, closes := 1, executed := [],
      response := { sql := none,
                    result := .rstr ("❌ Unknown operation '" ++ a.operation ++ "'.") },
      table := products }

/-- The set of operation names both dispatchers recognise. -/
def knownOps : List String := ["create", "read", "update", "delete", "describe"]

/-- The `sqlserver_crud` validation checks, one per operation that has
required parameters, in the source's truthiness semantics: `true` when the
branch would return the validation-error record. -/
def myValidationFails (a : MySqlArgs) : Bool :=
  (a.operation == "create" && !(truthyStr a.name && truthyStr a.email)) ||
  (a.operation == "update" && !(truthyInt a.customer_id && truthyStr a.new_email)) ||
  (a.operation == "delete" && !truthyInt a.customer_id) ||
  (a.operation == "describe" && !truthyStr a.table_name)

/-- The `postgresql_crud` validation checks, in the source's semantics. -/
def pgValidationFails (a : PgArgs) : Bool :=
  (a.operation == "create" && (!truthyStr a.name || a.price.isNone)) ||
  (a.operation == "update" && (!truthyInt a.product_id || a.new_price.isNone)) ||
  (a.operation == "delete" && (!truthyInt a.product_id && !truthyStr a.name)) ||
  (a.operation == "describe" && !truthyStr a.table_name)

/-- `true` when the result is an error string (the source marks every error
message with a leading cross-mark character). -/
def isErrStr : ResultData → Bool
  | .rstr s =>
    match s.data with
    | [] => false
    | c :: _ => c == '❌'
  | .rows _ => false

/-- `true` when the result is a success message (the source marks every
success message with a leading check-mark character). -/
def isOkStr : ResultData → Bool
  | .rstr s =>
    match s.data with
    | [] => false
    | c :: _ => c == '✅'
  | .rows _ => false

/-- An environment is a partial map from variable names to values;
`os.getenv` is application. -/
def Env : Type := String → Option String

/-- `must_get` from `src/Server_Tools.py` (lines 37–41): raises unless the
variable is set to a truthy (non-empty) string. -/
def must_get (env : Env) (key : String) : Except String String :=
  match env key with
  | none => .error ("Missing required env var " ++ key)
  | some v => if v == "" then .error ("Missing required env var " ++ key) else .ok v

/-- The value of a decimal digit character, `none` on anything else. -/
def digitVal? (c : Char) : Option Nat :=
  if '0' ≤ c ∧ c ≤ '9' then some (c.toNat - '0'.toNat) else none

/-- Accumulate a decimal numeral over a character list, `none` on any
non-digit. -/
def decimalNatAux : List Char → Nat → Option Nat
  | [], acc => some acc
  | c :: cs, acc =>
    match digitVal? c with
    | none => none
    | some d => decimalNatAux cs (acc * 10 + d)

/-- Model of Python `int(str)` on a decimal numeral with optional minus sign. -/
def pyInt? (s : String) : Option Int :=
  match s.data with
  | [] => none
  | '-' :: cs =>
    match cs with
    | [] => none
    | _ => (decimalNatAux cs 0).map (fun n => -(n : Int))
  | cs => (decimalNatAux cs 0).map (fun n => (n : Int))

/-- Python `int(...)` applied to `os.getenv(...)`: raises `TypeError` on
`None` and `ValueError` on a non-numeric string. -/
def pyIntOfEnv : Option String → Except String Int
  | none => .error "TypeError: int() argument cannot be None"
  | some s =>
    match pyInt? s with
    | some n => .ok n
    | none => .error ("ValueError: invalid literal for int(): " ++ s)

/-- The module-level MySQL configuration (lines 15–19): plain `os.getenv`
for host, user, password and db; `int(os.getenv("MYSQL_PORT"))` for the port. -/
structure MySqlEnvConfig where
  host : Option String
  port : Int
  user : Option String
  password : Option String
  db : Option String
deriving DecidableEq, Repr

/-- Loading the MySQL configuration at import time: the only step that can
fail is the `int()` conversion of `MYSQL_PORT`. -/
def loadMySqlConfig (env : Env) : Except String MySqlEnvConfig :=
  match pyIntOfEnv (env "MYSQL_PORT") with
  | .error e => .error e
  | .ok port =>
    .ok { host := env "MYSQL_HOST", port := port, user := env "MYSQL_USER",
          password := env "MYSQL_PASSWORD", db := env "MYSQL_DB" }

/-- The module-level PostgreSQL configuration (lines 43–47). -/
structure PgEnvConfig where
  host : String
  port : Int
  db : String
  user : String
  password : String
deriving DecidableEq, Repr

/-- Loading the PostgreSQL configuration at import time: `must_get` for host,
port, user and password; `os.getenv("PG_DB", "postgres")` for the database
name. -/
def loadPgConfig (env : Env) : Except String PgEnvConfig :=
  match must_get env "PG_HOST" with
  | .error e => .error e
  | .ok host =>
    match must_get env "PG_PORT" with
    | .error e => .error e
    | .ok portStr =>
      match pyIntOfEnv (some portStr) with
      | .error e => .error e
      | .ok port =>
        match must_get env "PG_USER" with
        | .error e => .error e
        | .ok user =>
          match must_get env "PG_PASSWORD" with
          | .error e => .error e
          | .ok pass =>
            .ok { host := host, port := port, db := (env "PG_DB").getD "postgres",
                  user := user, password := pass }

/-- `true` when an `Except` computation succeeded (the module import did not
raise). -/
def exceptOk {ε α : Type} : Except ε α → Bool
  | .ok _ => true
  | .error _ => false

/-- The rows of a result, empty for a message result. -/
def resultRows : ResultData → List (List (String × PyVal))
  | .rows rs => rs
  | .rstr _ => []

/-- A sample timestamp used for concrete evaluations. -/
def ts2024 : Timestamp := { year := 2024, month := 5, day := 17, hour := 10, minute := 30, second := 0 }

/-- A sample Customers row used for concrete evaluations. -/
def cAlice : CustomerRow := { Id := 1, Name := "Alice", Email := "alice@example.com", CreatedAt := ts2024 }

/-- A `products` column in the configured database. -/
def infoOwn : InfoColumn :=
  { table_schema := "defaultdb", table_name := "products", column_name := "id",
    data_type := "integer", is_nullable := "NO", char_max_length := none }

/-- A column of a same-named `products` table in a different schema/database. -/
def infoForeign : InfoColumn :=
  { table_schema := "otherdb", table_name := "products", column_name := "foreign_col",
    data_type := "text", is_nullable := "YES", char_max_length := some 20 }

/-- An information schema holding a `products` table in two different schemas. -/
def infoTwoSchemas : List InfoColumn := [infoOwn, infoForeign]

/-- An environment where every MySQL credential except the port is absent
and all PostgreSQL variables are set. -/
def envNoMysqlCreds : Env := fun k =>
  if k == "MYSQL_PORT" then some "3306"
  else if k == "PG_HOST" then some "h"
  else if k == "PG_PORT" then some "5432"
  else if k == "PG_USER" then some "u"
  else if k == "PG_PASSWORD" then some "p"
  else none

theorem must_get_isSome {env : Env} {k v : String} (h : must_get env k = .ok v) :
    (env k).isSome = true := by
  unfold must_get at h
  cases he : env k with
  | none => rw [he] at h; exact absurd h (by simp)
  | some w => rfl

theorem loadPgConfig_ok {env : Env} {cfg : PgEnvConfig} (hok : loadPgConfig env = .ok cfg) :
    (env "PG_HOST").isSome = true ∧ (env "PG_PORT").isSome = true ∧
    (env "PG_USER").isSome = true ∧ (env "PG_PASSWORD").isSome = true ∧
    cfg.db = (env "PG_DB").getD "postgres" := by
  unfold loadPgConfig at hok
  split at hok
  · exact absurd hok (by simp)
  rename_i host hhost
  split at hok
  · exact absurd hok (by simp)
  rename_i portStr hport
  split at hok
  · exact absurd hok (by simp)
  rename_i port hint
  split at hok
  · exact absurd hok (by simp)
  rename_i user huser
  split at hok
  · exact absurd hok (by simp)
  rename_i pass hpass
  cases hok
  exact ⟨must_get_isSome hhost, must_get_isSome hport, must_get_isSome huser,
    must_get_isSome hpass, rfl⟩

set_option maxHeartbeats 1000000 in
/-- C1: for every invocation of either dispatcher, the executed statement
texts are determined solely by the operation and the validation flags (the
two-run property: two runs agreeing on the operation and on each parameter's
validation flag execute the same statement texts, whatever the parameter
values), and every executed text belongs to the fixed finite set of constant
statements of that dispatcher, so no caller-supplied value ever appears in
statement text — values reach the store only in the bound-parameter list. -/
theorem C1_statements_fixed_and_value_independent :
    (∀ (a₁ a₂ : MySqlArgs) (db₁ db₂ : String) (t₁ t₂ : List CustomerRow)
        (i₁ i₂ : List InfoColumn) (n₁ n₂ : Int) (ts₁ ts₂ : Timestamp),
      a₁.operation = a₂.operation →
      truthyStr a₁.name = truthyStr a₂.name →
      truthyStr a₁.email = truthyStr a₂.email →
      truthyInt a₁.customer_id = truthyInt a₂.customer_id →
      truthyStr a₁.new_email = truthyStr a₂.new_email →
      truthyStr a₁.table_name = truthyStr a₂.table_name →
      (sqlserver_crud db₁ a₁ t₁ i₁ n₁ ts₁).executed.map Prod.fst
        = (sqlserver_crud db₂ a₂ t₂ i₂ n₂ ts₂).executed.map Prod.fst) ∧
    (∀ (db : String) (a : MySqlArgs) (t : List CustomerRow) (i : List InfoColumn)
        (n : Int) (ts : Timestamp),
      ∀ s ∈ (sqlserver_crud db a t i n ts).executed.map Prod.fst, s ∈ mysqlStatements) ∧
    (∀ (b₁ b₂ : PgArgs) (t₁ t₂ : List ProductRow) (i₁ i₂ : List InfoColumn) (n₁ n₂ : Int),
      b₁.operation = b₂.operation →
      truthyStr b₁.name = truthyStr b₂.name →
      b₁.price.isNone = b₂.price.isNone →
      truthyInt b₁.product_id = truthyInt b₂.product_id →
      b₁.new_price.isNone = b₂.new_price.isNone →
      truthyStr b₁.table_name = truthyStr b₂.table_name →
      (postgresql_crud b₁ t₁ i₁ n₁).executed.map Prod.fst
        = (postgresql_crud b₂ t₂ i₂ n₂).executed.map Prod.fst) ∧
    (∀ (b : PgArgs) (t : List ProductRow) (i : List InfoColumn) (n : Int),
      ∀ s ∈ (postgresql_crud b t i n).executed.map Prod.fst, s ∈ pgStatements) := by
  refine ⟨?_, ?_, ?_, ?_⟩
  · intro a₁ a₂ db₁ db₂ t₁ t₂ i₁ i₂ n₁ n₂ ts₁ ts₂ hop h1 h2 h3 h4 h5
    simp only [sqlserver_crud, hop, h1, h2, h3, h4, h5]
    split_ifs <;> rfl
  · intro db a t i n ts s hs
    unfold sqlserver_crud at hs
    split_ifs at hs <;> simp_all [mysqlStatements]
  · intro b₁ b₂ t₁ t₂ i₁ i₂ n₁ n₂ hop h1 h2 h3 h4 h5
    simp only [postgresql_crud, hop, h1, h2, h3, h4, h5]
    split_ifs <;> rfl
  · intro b t i n s hs
    unfold postgresql_crud at hs
    split_ifs at hs <;> simp_all [pgStatements]

/-- Witness for C1: two create invocations with different names and emails
(and different table states) execute the same statement text. -/
theorem C1_witness :
    (sqlserver_crud "defaultdb"
        { operation := "create", name := some "Alice", email := some "alice@example.com" }
        [] [] 1 ts2024).executed.map Prod.fst
      = (sqlserver_crud "otherdb"
        { operation := "create", name := some "Robert", email := some "bob@example.com" }
        [cAlice] [] 2 ts2024).executed.map Prod.fst :=
  C1_statements_fixed_and_value_independent.1 _ _ _ _ _ _ _ _ _ _ _ _
    rfl (by decide) (by decide) rfl rfl rfl

/-- C2: an invocation whose operation is unrecognized, or whose operation's
required parameters fail the source's validation check, returns a record with
a null `sql` field and an error string (leading cross mark) as `result`, and
executes no SQL statement. -/
theorem C2_rejects_return_null_sql_and_execute_nothing :
    (∀ (db : String) (a : MySqlArgs) (t : List CustomerRow) (i : List InfoColumn)
        (n : Int) (ts : Timestamp),
      (a.operation ∉ knownOps ∨ myValidationFails a = true) →
      (sqlserver_crud db a t i n ts).response.sql = none ∧
      (sqlserver_crud db a t i n ts).executed = [] ∧
      isErrStr (sqlserver_crud db a t i n ts).response.result = true) ∧
    (∀ (b : PgArgs) (t : List ProductRow) (i : List InfoColumn) (n : Int),
      (b.operation ∉ knownOps ∨ pgValidationFails b = true) →
      (postgresql_crud b t i n).response.sql = none ∧
      (postgresql_crud b t i n).executed = [] ∧
      isErrStr (postgresql_crud b t i n).response.result = true) := by
  constructor
  · intro db a t i n ts h
    unfold sqlserver_crud
    split_ifs <;> simp_all [myValidationFails, knownOps, isErrStr, String.data_append]
  · intro b t i n h
    unfold postgresql_crud
    split_ifs <;> simp_all [pgValidationFails, knownOps, isErrStr, String.data_append]

/-- Witness for C2: an unknown operation and a create with a missing email
both return null `sql`, no executed statement, and an error-marked result. -/
theorem C2_witness :
    ((sqlserver_crud "defaultdb" { operation := "drop" } [cAlice] [] 1 ts2024).response.sql = none ∧
     (sqlserver_crud "defaultdb" { operation := "drop" } [cAlice] [] 1 ts2024).executed = [] ∧
     isErrStr (sqlserver_crud "defaultdb" { operation := "drop" } [cAlice] [] 1 ts2024).response.result = true) ∧
    ((postgresql_crud { operation := "create", name := some "Widget" } [] [] 1).response.sql = none ∧
     (postgresql_crud { operation := "create", name := some "Widget" } [] [] 1).executed = [] ∧
     isErrStr (postgresql_crud { operation := "create", name := some "Widget" } [] [] 1).response.result = true) :=
  ⟨C2_rejects_return_null_sql_and_execute_nothing.1 "defaultdb"
      { operation := "drop" } [cAlice] [] 1 ts2024 (Or.inl (by decide)),
   C2_rejects_return_null_sql_and_execute_nothing.2
      { operation := "create", name := some "Widget" } [] [] 1 (Or.inr (by decide))⟩

/-- C3: evaluation of both dispatchers at the failing inputs — every
invocation acquires one connection, but `sqlserver_crud` closes it on no exit
path (read, successful create, validation failure, unknown operation all show
`closes = 0`), and `postgresql_crud`'s delete branch returns without closing
on both its validation-failure and success paths, so the claimed
close-on-every-exit-path invariant does not hold in the code. -/
theorem C3_connection_not_closed_on_all_paths :
    (sqlserver_crud "defaultdb" { operation := "read" } [] [] 1 ts2024).acquired = 1 ∧
    (sqlserver_crud "defaultdb" { operation := "read" } [] [] 1 ts2024).closes = 0 ∧
    (sqlserver_crud "defaultdb"
      { operation := "create", name := some "Alice", email := some "alice@example.com" }
      [] [] 1 ts2024).closes = 0 ∧
    (sqlserver_crud "defaultdb" { operation := "create" } [] [] 1 ts2024).closes = 0 ∧
    (sqlserver_crud "defaultdb" { operation := "drop" } [] [] 1 ts2024).closes = 0 ∧
    (postgresql_crud { operation := "delete", product_id := some 1 } [] [] 1).acquired = 1 ∧
    (postgresql_crud { operation := "delete", product_id := some 1 } [] [] 1).closes = 0 ∧
    (postgresql_crud { operation := "delete" } [] [] 1).closes = 0 ∧
    (postgresql_crud { operation := "read" } [] [] 1).closes = 1 :=
  ⟨rfl, rfl, rfl, rfl, rfl, rfl, rfl, rfl, rfl⟩

/-- C4: evaluation at an information schema holding a `products` table in the
configured schema and a same-named table in a foreign schema —
`sqlserver_crud`'s describe (filtering by TABLE_SCHEMA and TABLE_NAME)
returns only the configured schema's column, but `postgresql_crud`'s describe
(filtering by table_name alone) also returns the foreign schema's column, so
the claim fails for the PostgreSQL dispatcher. -/
theorem C4_pg_describe_returns_foreign_schema_columns :
    (sqlserver_crud "defaultdb" { operation := "describe", table_name := some "products" }
        [] infoTwoSchemas 1 ts2024).response.result = .rows [renderInfo infoOwn] ∧
    (postgresql_crud { operation := "describe", table_name := some "products" }
        [] infoTwoSchemas 1).response.result = .rows [renderInfo infoOwn, renderInfo infoForeign] ∧
    infoForeign.table_schema ≠ infoOwn.table_schema :=
  ⟨rfl, rfl, by decide⟩

/-- C5: the `limit` parameter has no effect whatsoever on either dispatcher
(changing it leaves the entire invocation outcome unchanged), and the read
operation returns every row of the table, ordered by ascending surrogate id
(the returned row list renders a sorted permutation of the table). -/
theorem C5_read_full_table_sorted_limit_ignored :
    (∀ (db : String) (a : MySqlArgs) (t : List CustomerRow) (i : List InfoColumn)
        (n : Int) (ts : Timestamp) (l₁ l₂ : Int),
      sqlserver_crud db { a with limit := l₁ } t i n ts
        = sqlserver_crud db { a with limit := l₂ } t i n ts) ∧
    (∀ (db : String) (t : List CustomerRow) (i : List InfoColumn) (n : Int) (ts : Timestamp)
        (nm em ne tn : Option String) (cid : Option Int) (lim : Int),
      (sqlserver_crud db ⟨"read", nm, em, lim, cid, ne, tn⟩ t i n ts).response.result
          = .rows ((List.insertionSort customerLe t).map renderCustomer) ∧
      (List.insertionSort customerLe t).Perm t ∧
      (List.insertionSort customerLe t).Sorted customerLe) ∧
    (∀ (b : PgArgs) (t : List ProductRow) (i : List InfoColumn) (n : Int) (l₁ l₂ : Int),
      postgresql_crud { b with limit := l₁ } t i n
        = postgresql_crud { b with limit := l₂ } t i n) ∧
    (∀ (t : List ProductRow) (i : List InfoColumn) (n : Int)
        (nm de tn : Option String) (pr np : Option ℚ) (pid : Option Int) (lim : Int),
      (postgresql_crud ⟨"read", nm, pr, de, lim, pid, np, tn⟩ t i n).response.result
          = .rows ((List.insertionSort productLe t).map renderProduct) ∧
      (List.insertionSort productLe t).Perm t ∧
      (List.insertionSort productLe t).Sorted productLe) := by
  refine ⟨fun _ _ _ _ _ _ _ _ => rfl, ?_, fun _ _ _ _ _ _ => rfl, ?_⟩
  · intro db t i n ts nm em ne tn cid lim
    exact ⟨rfl, List.perm_insertionSort customerLe t, List.sorted_insertionSort customerLe t⟩
  · intro t i n nm de tn pr np pid lim
    exact ⟨rfl, List.perm_insertionSort productLe t, List.sorted_insertionSort productLe t⟩

/-- C6: every row-record returned by read lists every column of its table
(keys Id, Name, Email, CreatedAt for Customers; id, name, price, description
for products) and renders some row of the table; the CreatedAt value is the
ISO-8601 rendering of the stored timestamp; the description value is always a
string — the empty string whenever the stored value is null. -/
theorem C6_read_rows_complete_and_normalized :
    (∀ (db : String) (t : List CustomerRow) (i : List InfoColumn) (n : Int) (ts : Timestamp)
        (nm em ne tn : Option String) (cid : Option Int) (lim : Int),
      ∀ rec ∈ resultRows (sqlserver_crud db ⟨"read", nm, em, lim, cid, ne, tn⟩ t i n ts).response.result,
        rec.map Prod.fst = ["Id", "Name", "Email", "CreatedAt"] ∧
        ∃ r, r ∈ t ∧ rec = renderCustomer r) ∧
    (∀ r : CustomerRow,
      (renderCustomer r).lookup "CreatedAt" = some (.vstr r.CreatedAt.isoformat)) ∧
    (∀ (t : List ProductRow) (i : List InfoColumn) (n : Int)
        (nm de tn : Option String) (pr np : Option ℚ) (pid : Option Int) (lim : Int),
      ∀ rec ∈ resultRows (postgresql_crud ⟨"read", nm, pr, de, lim, pid, np, tn⟩ t i n).response.result,
        rec.map Prod.fst = ["id", "name", "price", "description"] ∧
        ∃ r, r ∈ t ∧ rec = renderProduct r) ∧
    (∀ r : ProductRow,
      (∃ s, (renderProduct r).lookup "description" = some (.vstr s)) ∧
      (r.description = none → (renderProduct r).lookup "description" = some (.vstr ""))) := by
  refine ⟨?_, fun _ => rfl, ?_, ?_⟩
  · intro db t i n ts nm em ne tn cid lim rec hrec
    have he : resultRows (sqlserver_crud db ⟨"read", nm, em, lim, cid, ne, tn⟩ t i n ts).response.result
        = (List.insertionSort customerLe t).map renderCustomer := rfl
    rw [he] at hrec
    obtain ⟨r, hr, rfl⟩ := List.mem_map.mp hrec
    exact ⟨rfl, r, (List.perm_insertionSort customerLe t).subset hr, rfl⟩
  · intro t i n nm de tn pr np pid lim rec hrec
    have he : resultRows (postgresql_crud ⟨"read", nm, pr, de, lim, pid, np, tn⟩ t i n).response.result
        = (List.insertionSort productLe t).map renderProduct := rfl
    rw [he] at hrec
    obtain ⟨r, hr, rfl⟩ := List.mem_map.mp hrec
    exact ⟨rfl, r, (List.perm_insertionSort productLe t).subset hr, rfl⟩
  · intro r
    refine ⟨⟨r.description.getD "", rfl⟩, fun hd => ?_⟩
    simp only [renderProduct, hd, Option.getD_none]
    rfl

/-- Witness for C6: concrete read invocations over a one-row Customers table
and a one-row products table with a null description. -/
theorem C6_witness :
    ((renderCustomer cAlice).map Prod.fst = ["Id", "Name", "Email", "CreatedAt"] ∧
      ∃ r, r ∈ [cAlice] ∧ renderCustomer cAlice = renderCustomer r) ∧
    ((renderProduct { id := 1, name := "Widget", price := 3, description := none }).map Prod.fst
        = ["id", "name", "price", "description"] ∧
      ∃ r, r ∈ [({ id := 1, name := "Widget", price := 3, description := none } : ProductRow)] ∧
        renderProduct { id := 1, name := "Widget", price := 3, description := none } = renderProduct r) :=
  ⟨C6_read_rows_complete_and_normalized.1 "defaultdb" [cAlice] [] 1 ts2024
      none none none none none 10 (renderCustomer cAlice) (by exact List.mem_singleton.mpr rfl),
   C6_read_rows_complete_and_normalized.2.2.1 [{ id := 1, name := "Widget", price := 3, description := none }]
      [] 1 none none none none none none 10
      (renderProduct { id := 1, name := "Widget", price := 3, description := none })
      (by exact List.mem_singleton.mpr rfl)⟩

/-- C7: for update and delete, the returned record is entirely independent of
the table state (and of the store-assigned insert id/timestamp), so the
response for an id matching zero rows is identical to the response for an id
matching a row; moreover, whenever the operation's required parameters pass
validation, that response is a success message (leading check mark) — no
existence check is performed. -/
theorem C7_update_delete_response_ignores_row_existence :
    (∀ (db : String) (a : MySqlArgs) (t₁ t₂ : List CustomerRow) (i₁ i₂ : List InfoColumn)
        (n₁ n₂ : Int) (ts₁ ts₂ : Timestamp),
      (a.operation = "update" ∨ a.operation = "delete") →
      (sqlserver_crud db a t₁ i₁ n₁ ts₁).response = (sqlserver_crud db a t₂ i₂ n₂ ts₂).response) ∧
    (∀ (db : String) (a : MySqlArgs) (t : List CustomerRow) (i : List InfoColumn)
        (n : Int) (ts : Timestamp),
      (a.operation = "update" ∨ a.operation = "delete") → myValidationFails a = false →
      isOkStr (sqlserver_crud db a t i n ts).response.result = true) ∧
    (∀ (b : PgArgs) (t₁ t₂ : List ProductRow) (i₁ i₂ : List InfoColumn) (n₁ n₂ : Int),
      (b.operation = "update" ∨ b.operation = "delete") →
      (postgresql_crud b t₁ i₁ n₁).response = (postgresql_crud b t₂ i₂ n₂).response) ∧
    (∀ (b : PgArgs) (t : List ProductRow) (i : List InfoColumn) (n : Int),
      (b.operation = "update" ∨ b.operation = "delete") → pgValidationFails b = false →
      isOkStr (postgresql_crud b t i n).response.result = true) := by
  refine ⟨?_, ?_, ?_, ?_⟩
  · intro db a t₁ t₂ i₁ i₂ n₁ n₂ ts₁ ts₂ hop
    rcases hop with hop | hop <;> simp [sqlserver_crud, hop] <;> split_ifs <;> rfl
  · intro db a t i n ts hop hv
    rcases hop with hop | hop <;>
      simp_all [sqlserver_crud, myValidationFails, isOkStr, String.data_append]
  · intro b t₁ t₂ i₁ i₂ n₁ n₂ hop
    rcases hop with hop | hop <;> simp [postgresql_crud, hop] <;> split_ifs <;> rfl
  · intro b t i n hop hv
    rcases hop with hop | hop <;>
      cases hpid : truthyInt b.product_id <;>
      simp_all [postgresql_crud, pgValidationFails, isOkStr, String.data_append,
        Option.isSome_iff_ne_none]

/-- Witness for C7: updating customer 1 over a table that contains it and
over an empty table yields the same success response; deleting product 7 over
an empty table yields a success message. -/
theorem C7_witness :
    ((sqlserver_crud "defaultdb"
        { operation := "update", customer_id := some 1, new_email := some "new@example.com" }
        [cAlice] [] 5 ts2024).response
      = (sqlserver_crud "defaultdb"
        { operation := "update", customer_id := some 1, new_email := some "new@example.com" }
        [] [] 6 ts2024).response) ∧
    isOkStr (postgresql_crud { operation := "delete", product_id := some 7 } [] [] 1).response.result = true :=
  ⟨C7_update_delete_response_ignores_row_existence.1 "defaultdb"
      { operation := "update", customer_id := some 1, new_email := some "new@example.com" }
      [cAlice] [] [] [] 5 6 ts2024 ts2024 (Or.inl rfl),
   C7_update_delete_response_ignores_row_existence.2.2.2
      { operation := "delete", product_id := some 7 } [] [] 1 (Or.inr rfl) (by decide)⟩

/-- C8: the Customer dispatcher's delete requires a truthy customer_id and
deletes by id only; the Product dispatcher's delete requires product_id or
name, deletes by id whenever a truthy product_id is given (even when a name
is also given), and with no truthy product_id but a truthy name deletes by
name, removing exactly the rows whose name matches. -/
theorem C8_delete_key_selection :
    (∀ (db : String) (a : MySqlArgs) (t : List CustomerRow) (i : List InfoColumn)
        (n : Int) (ts : Timestamp),
      a.operation = "delete" → truthyInt a.customer_id = false →
      (sqlserver_crud db a t i n ts).response.sql = none ∧
      (sqlserver_crud db a t i n ts).executed = []) ∧
    (∀ (db : String) (a : MySqlArgs) (t : List CustomerRow) (i : List InfoColumn)
        (n : Int) (ts : Timestamp) (cid : Int),
      a.operation = "delete" → a.customer_id = some cid → cid ≠ 0 →
      (sqlserver_crud db a t i n ts).executed = [(mysqlDeleteSql, [.int cid])] ∧
      (sqlserver_crud db a t i n ts).table = t.filter (fun r => !(r.Id == cid))) ∧
    (∀ (b : PgArgs) (t : List ProductRow) (i : List InfoColumn) (n : Int),
      b.operation = "delete" → truthyInt b.product_id = false → truthyStr b.name = false →
      (postgresql_crud b t i n).response.sql = none ∧
      (postgresql_crud b t i n).executed = []) ∧
    (∀ (b : PgArgs) (t : List ProductRow) (i : List InfoColumn) (n : Int) (pid : Int),
      b.operation = "delete" → b.product_id = some pid → pid ≠ 0 →
      (postgresql_crud b t i n).executed = [(pgDeleteByIdSql, [.int pid])] ∧
      (postgresql_crud b t i n).table = t.filter (fun r => !(r.id == pid))) ∧
    (∀ (b : PgArgs) (t : List ProductRow) (i : List InfoColumn) (n : Int) (nm : String),
      b.operation = "delete" → truthyInt b.product_id = false → b.name = some nm → nm ≠ "" →
      (postgresql_crud b t i n).executed = [(pgDeleteByNameSql, [.str nm])] ∧
      (∀ r ∈ (postgresql_crud b t i n).table, r.name ≠ nm) ∧
      (∀ r ∈ t, r.name ≠ nm → r ∈ (postgresql_crud b t i n).table)) := by
  refine ⟨?_, ?_, ?_, ?_, ?_⟩
  · intro db a t i n ts hop hcid
    simp_all [sqlserver_crud]
  · intro db a t i n ts cid hop hcid hnz
    simp_all [sqlserver_crud, truthyInt]
  · intro b t i n hop hpid hnm
    simp_all [postgresql_crud]
  · intro b t i n pid hop hpid hnz
    simp_all [postgresql_crud, truthyInt]
  · intro b t i n nm hop hpid hnm hne
    have h1 : (postgresql_crud b t i n).executed = [(pgDeleteByNameSql, [.str nm])] := by
      simp_all [postgresql_crud, truthyStr]
    have h2 : (postgresql_crud b t i n).table = t.filter (fun r => !(r.name == nm)) := by
      simp_all [postgresql_crud, truthyStr]
    refine ⟨h1, ?_, ?_⟩
    · intro r hr
      rw [h2] at hr
      have := List.of_mem_filter hr
      simpa using this
    · intro r hr hne2
      rw [h2]
      exact List.mem_filter.mpr ⟨hr, by simpa using hne2⟩

/-- Witness for C8: deleting product 2 when both product_id and name are
supplied executes the delete-by-id statement; deleting by name alone removes
the matching row and keeps the others. -/
theorem C8_witness :
    ((postgresql_crud { operation := "delete", product_id := some 2, name := some "Widget" }
        [] [] 1).executed = [(pgDeleteByIdSql, [.int 2])] ∧
     (postgresql_crud { operation := "delete", product_id := some 2, name := some "Widget" }
        [] [] 1).table = List.filter (fun r => !(r.id == 2)) []) ∧
    ((postgresql_crud { operation := "delete", name := some "Widget" }
        [{ id := 1, name := "Widget", price := 3, description := none }] [] 1).executed
      = [(pgDeleteByNameSql, [.str "Widget"])]) :=
  ⟨C8_delete_key_selection.2.2.2.1 { operation := "delete", product_id := some 2, name := some "Widget" }
      [] [] 1 2 rfl rfl (by decide),
   (C8_delete_key_selection.2.2.2.2 { operation := "delete", name := some "Widget" }
      [{ id := 1, name := "Widget", price := 3, description := none }] [] 1 "Widget"
      rfl rfl rfl (by decide)).1⟩

/-- C9 counterexample: in an environment where the MySQL host, user and
password are all absent (only the port is set), the module-level MySQL
configuration loads without error — startup does not fail for the MySQL
store, contradicting the claim that a missing host, user or password is
fatal for each store. -/
theorem C9_counterexample_mysql_creds_not_required :
    envNoMysqlCreds "MYSQL_HOST" = none ∧
    envNoMysqlCreds "MYSQL_USER" = none ∧
    envNoMysqlCreds "MYSQL_PASSWORD" = none ∧
    exceptOk (loadMySqlConfig envNoMysqlCreds) = true :=
  ⟨rfl, rfl, rfl, rfl⟩

/-- C9 amended: only the PostgreSQL store validates its credentials — a
missing PG host, port, user or password makes the import fail, and a missing
PG_DB falls back to "postgres"; for the MySQL store only the port is fatal
(its `int()` conversion raises on an absent variable), while an absent host,
user, password or database name loads as null without error. -/
theorem C9_pg_creds_fatal_mysql_port_only :
    (∀ env : Env,
      ((env "PG_HOST").isNone = true ∨ (env "PG_PORT").isNone = true ∨
        (env "PG_USER").isNone = true ∨ (env "PG_PASSWORD").isNone = true) →
      exceptOk (loadPgConfig env) = false) ∧
    (∀ env : Env, env "PG_DB" = none →
      ∀ cfg, loadPgConfig env = .ok cfg → cfg.db = "postgres") ∧
    (∀ env : Env, env "MYSQL_PORT" = none → exceptOk (loadMySqlConfig env) = false) ∧
    (∀ (env : Env) (s : String) (m : Int), env "MYSQL_PORT" = some s → pyInt? s = some m →
      exceptOk (loadMySqlConfig env) = true) := by
  refine ⟨?_, ?_, ?_, ?_⟩
  · intro env h
    cases hl : loadPgConfig env with
    | error e => rfl
    | ok cfg =>
      obtain ⟨h1, h2, h3, h4, _⟩ := loadPgConfig_ok hl
      rcases h with h | h | h | h <;> rw [Option.isNone_iff_eq_none] at h <;> simp [h] at h1 h2 h3 h4
  · intro env hdb cfg hok
    have hd := (loadPgConfig_ok hok).2.2.2.2
    rw [hd, hdb]
    rfl
  · intro env h
    simp [loadMySqlConfig, pyIntOfEnv, h, exceptOk]
  · intro env s m hs hm
    simp [loadMySqlConfig, pyIntOfEnv, hs, hm, exceptOk]

/-- Witness for the amended C9: the empty environment makes the PostgreSQL
configuration loading fail, while the environment with only MYSQL_PORT set
loads the MySQL configuration successfully. -/
theorem C9_witness :
    exceptOk (loadPgConfig (fun _ => none)) = false ∧
    exceptOk (loadMySqlConfig envNoMysqlCreds) = true :=
  ⟨C9_pg_creds_fatal_mysql_port_only.1 (fun _ => none) (Or.inl rfl),
   C9_pg_creds_fatal_mysql_port_only.2.2.2 envNoMysqlCreds "3306" 3306 rfl rfl⟩

/-- C10: validation uses truthiness for ids and strings but a None-check for
prices — a zero customer_id or product_id and an empty name, email,
new_email or table_name are rejected as missing (null `sql`, nothing
executed), while a zero price for create and a zero new_price for update
pass validation and execute the statement. -/
theorem C10_zero_id_empty_string_rejected_zero_price_accepted :
    (∀ (db : String) (t : List CustomerRow) (i : List InfoColumn) (n : Int) (ts : Timestamp),
      ((sqlserver_crud db { operation := "update", customer_id := some 0, new_email := some "x@example.com" }
          t i n ts).response.sql = none ∧
       (sqlserver_crud db { operation := "update", customer_id := some 0, new_email := some "x@example.com" }
          t i n ts).executed = []) ∧
      ((sqlserver_crud db { operation := "delete", customer_id := some 0 } t i n ts).response.sql = none ∧
       (sqlserver_crud db { operation := "delete", customer_id := some 0 } t i n ts).executed = []) ∧
      ((sqlserver_crud db { operation := "create", name := some "", email := some "a@example.com" }
          t i n ts).response.sql = none ∧
       (sqlserver_crud db { operation := "create", name := some "", email := some "a@example.com" }
          t i n ts).executed = []) ∧
      ((sqlserver_crud db { operation := "create", name := some "Alice", email := some "" }
          t i n ts).response.sql = none ∧
       (sqlserver_crud db { operation := "create", name := some "Alice", email := some "" }
          t i n ts).executed = []) ∧
      ((sqlserver_crud db { operation := "update", customer_id := some 3, new_email := some "" }
          t i n ts).response.sql = none ∧
       (sqlserver_crud db { operation := "update", customer_id := some 3, new_email := some "" }
          t i n ts).executed = []) ∧
      ((sqlserver_crud db { operation := "describe", table_name := some "" } t i n ts).response.sql = none ∧
       (sqlserver_crud db { operation := "describe", table_name := some "" } t i n ts).executed = [])) ∧
    (∀ (t : List ProductRow) (i : List InfoColumn) (n : Int),
      ((postgresql_crud { operation := "update", product_id := some 0, new_price := some 1 }
          t i n).response.sql = none ∧
       (postgresql_crud { operation := "update", product_id := some 0, new_price := some 1 }
          t i n).executed = []) ∧
      ((postgresql_crud { operation := "delete", product_id := some 0 } t i n).response.sql = none ∧
       (postgresql_crud { operation := "delete", product_id := some 0 } t i n).executed = []) ∧
      ((postgresql_crud { operation := "create", name := some "", price := some 1 } t i n).response.sql = none ∧
       (postgresql_crud { operation := "create", name := some "", price := some 1 } t i n).executed = []) ∧
      ((postgresql_crud { operation := "create", name := some "Widget", price := some 0 }
          t i n).response.sql = some pgCreateSql ∧
       (postgresql_crud { operation := "create", name := some "Widget", price := some 0 }
          t i n).executed = [(pgCreateSql, [.str "Widget", .num 0, .null])]) ∧
      ((postgresql_crud { operation := "update", product_id := some 3, new_price := some 0 }
          t i n).response.sql = some pgUpdateSql ∧
       (postgresql_crud { operation := "update", product_id := some 3, new_price := some 0 }
          t i n).executed = [(pgUpdateSql, [.num 0, .int 3])])) :=
  ⟨fun _ _ _ _ _ => ⟨⟨rfl, rfl⟩, ⟨rfl, rfl⟩, ⟨rfl, rfl⟩, ⟨rfl, rfl⟩, ⟨rfl, rfl⟩, rfl, rfl⟩,
   fun _ _ _ => ⟨⟨rfl, rfl⟩, ⟨rfl, rfl⟩, ⟨rfl, rfl⟩, ⟨rfl, rfl⟩, rfl, rfl⟩⟩
